import Mathlib

/-!
Shallow embedding of the AWS-S3 factory-drive storage driver
(`src/aws-s3.storage.ts`) and proofs about its behaviour.

Modelling conventions:
- machine bytes are `Nat` lists; backend results are plain structures;
- an awaited backend call is embedded as an explicit `Except BackendError α`
  outcome handed to the driver operation (the `try { await ... } catch` shape);
- the stateful operations (`copy`, `delete`, `move`, `put` at backend level)
  are state-passing over an `S3State`, returning the result, the post state
  and the trace of backend calls that were issued;
- `null`/absent JavaScript values are `Option.none`.
-/

set_option linter.unusedVariables false

namespace FactoryDrive

instance {ε α : Type} [DecidableEq ε] [DecidableEq α] : DecidableEq (Except ε α) :=
  fun a b =>
    match a, b with
    | .ok x, .ok y =>
      if h : x = y then isTrue (congrArg Except.ok h)
      else isFalse (fun hh => h (Except.ok.inj hh))
    | .error x, .error y =>
      if h : x = y then isTrue (congrArg Except.error h)
      else isFalse (fun hh => h (Except.error.inj hh))
    | .ok _, .error _ => isFalse (fun hh => Except.noConfusion hh)
    | .error _, .ok _ => isFalse (fun hh => Except.noConfusion hh)

/-- Raw bytes of an object body (the `Buffer` of the source). -/
abbrev Bytes := List Nat

/-- A backend-native error as observed by the driver: a symbolic name and an
optional numeric status code. -/
structure BackendError where
  name : String
  statusCode : Option Nat
deriving DecidableEq, Repr

/-- Result of the backend `copyObject` call. -/
structure CopyObjectResult where
  eTag : String
deriving DecidableEq, Repr

/-- Result of the backend `deleteObject` call. -/
structure DeleteObjectResult where
  deleteMarker : Option Bool
deriving DecidableEq, Repr

/-- Result of the backend `headObject` call. -/
structure HeadObjectResult where
  contentLength : Nat
  lastModified : Nat
deriving DecidableEq, Repr

/-- Result of the backend `getObject` call. -/
structure GetObjectResult where
  body : Bytes
deriving DecidableEq, Repr

/-- Result of the backend `putObject` call. -/
structure PutObjectResult where
  eTag : String
deriving DecidableEq, Repr

/-- One object entry of a listing page (`Contents` element). -/
structure S3Object where
  key : String
deriving DecidableEq, Repr

/-- The translated storage errors of the host abstraction
(`NoSuchBucketException`, `FileNotFoundException`, `PermissionMissingException`,
`UnknownException`), each retaining the original backend error as its cause. -/
inductive StorageError where
  | NoSuchBucketException (cause : BackendError) (bucket : String)
  | FileNotFoundException (cause : BackendError) (path : String)
  | PermissionMissingException (cause : BackendError) (path : String)
  | UnknownException (cause : BackendError) (errName : String) (path : String)
deriving DecidableEq, Repr

/-- The original backend error retained by a translated error. -/
def StorageError.cause : StorageError → BackendError
  | .NoSuchBucketException c _ => c
  | .FileNotFoundException c _ => c
  | .PermissionMissingException c _ => c
  | .UnknownException c _ _ => c

/-- `handleError` of the source: maps a backend error name to one of the four
translated error kinds. -/
def handleError (err : BackendError) (path bucket : String) : StorageError :=
  match err.name with
  | "NoSuchBucket" => .NoSuchBucketException err bucket
  | "NoSuchKey" => .FileNotFoundException err path
  | "AllAccessDisabled" => .PermissionMissingException err path
  | _ => .UnknownException err err.name path

/-- The backend-native value carried in the `raw` field of a response
envelope. `undef` is JavaScript `undefined`; `pendingPut` is a still-pending
(un-awaited) `putObject` call. -/
inductive RawResult where
  | copyRes (r : CopyObjectResult)
  | deleteRes (r : DeleteObjectResult)
  | headRes (r : HeadObjectResult)
  | headErr (e : BackendError)
  | getRes (r : GetObjectResult)
  | putRes (r : PutObjectResult)
  | pendingPut (outcome : Except BackendError PutObjectResult)
  | signedUrl (url : String)
  | listEntry (o : S3Object)
  | undef
deriving DecidableEq, Repr

/-- True for values that are a completed backend-native result (or backend
error) of the call; false for `undefined` and for a pending un-awaited call. -/
def RawResult.isBackendNative : RawResult → Bool
  | .undef => false
  | .pendingPut _ => false
  | _ => true

/-- Generic `{raw}` response envelope. -/
structure Response where
  raw : RawResult
deriving DecidableEq, Repr

/-- `{raw, wasDeleted}`; `wasDeleted` is `null` (`none`) in the source. -/
structure DeleteResponse where
  raw : RawResult
  wasDeleted : Option Bool
deriving DecidableEq, Repr

/-- `{exists, raw}` envelope of the existence probe. -/
structure ExistsResponse where
  «exists» : Bool
  raw : RawResult
deriving DecidableEq, Repr

/-- `{content, raw}` envelope of the read operations. -/
structure ContentResponse (α : Type) where
  content : α
  raw : RawResult
deriving DecidableEq, Repr

/-- `{size, modified, raw}` envelope of `getStat`. -/
structure StatResponse where
  size : Nat
  modified : Nat
  raw : RawResult
deriving DecidableEq, Repr

/-- `{signedUrl, raw}` envelope of `getSignedUrl`. -/
structure SignedUrlResponse where
  signedUrl : String
  raw : RawResult
deriving DecidableEq, Repr

/-- `{raw, path}` entry yielded by `flatList`. -/
structure FileListResponse where
  raw : RawResult
  path : String
deriving DecidableEq, Repr

/-- An error as raised to the host: either translated by `handleError` or the
backend-native error rethrown untouched. -/
inductive RaisedError where
  | native (e : BackendError)
  | translated (e : StorageError)
deriving DecidableEq, Repr

/-- Whether a raised error went through the driver's translation. -/
def RaisedError.isTranslated : RaisedError → Bool
  | .native _ => false
  | .translated _ => true

/-! Backend state model: the store of the configured bucket as an association
list from key to body bytes, plus injectable failures for the mutating calls
(the backend collaborator may fail any call; the driver only observes the
thrown error). -/

/-- State of the backend bucket together with the failure the next mutating
call of each kind would raise (`none` = the call succeeds). -/
structure S3State where
  store : List (String × Bytes)
  copyFail : Option BackendError
  deleteFail : Option BackendError
deriving DecidableEq, Repr

/-- Record of one backend call issued by the driver. -/
inductive S3Call where
  | copyObject (src dest : String)
  | deleteObject (key : String)
deriving DecidableEq, Repr

/-- Body stored under a key, if present. -/
def lookupKey (store : List (String × Bytes)) (k : String) : Option Bytes :=
  (store.find? (fun p => p.1 == k)).map (fun p => p.2)

/-- Store with `k` bound to `v` (overwriting any previous binding). -/
def setKey (store : List (String × Bytes)) (k : String) (v : Bytes) :
    List (String × Bytes) :=
  (k, v) :: store.filter (fun p => p.1 != k)

/-- Store with any binding of `k` removed. -/
def removeKey (store : List (String × Bytes)) (k : String) :
    List (String × Bytes) :=
  store.filter (fun p => p.1 != k)

/-- Backend `copyObject`: server-side copy of `src` to `dest` within the
bucket; fails with the injected error, or with `NoSuchKey` when `src` is
absent. -/
def copyObject (st : S3State) (src dest : String) :
    Except BackendError (CopyObjectResult × S3State) :=
  match st.copyFail with
  | some e => .error e
  | none =>
    match lookupKey st.store src with
    | none => .error ⟨"NoSuchKey", some 404⟩
    | some body => .ok (⟨"copy-etag"⟩, { st with store := setKey st.store dest body })

/-- Backend `deleteObject`: removes the key (succeeding whether or not it was
present), or fails with the injected error. -/
def deleteObject (st : S3State) (k : String) :
    Except BackendError (DeleteObjectResult × S3State) :=
  match st.deleteFail with
  | some e => .error e
  | none => .ok (⟨none⟩, { st with store := removeKey st.store k })

/-- Backend `putObject`: stores `content` under `k`. -/
def putObject (st : S3State) (k : String) (content : Bytes) :
    PutObjectResult × S3State :=
  (⟨"put-etag"⟩, { st with store := setKey st.store k content })

/-- Backend `getObject`: body stored under `k`, or a `NoSuchKey` error. -/
def getObject (st : S3State) (k : String) : Except BackendError GetObjectResult :=
  match lookupKey st.store k with
  | some body => .ok ⟨body⟩
  | none => .error ⟨"NoSuchKey", some 404⟩

/-- Result of one backend `listObjectsV2` page: the entries of the page and
the continuation token of the next page when the listing is truncated. -/
structure ListObjectsV2Result where
  contents : List S3Object
  nextContinuationToken : Option Nat
deriving DecidableEq, Repr

/-- Objects of the bucket whose key starts with the requested prefix, in
backend order. -/
def matchingObjects (objs : List S3Object) (pfx : String) : List S3Object :=
  objs.filter (fun o => o.key.startsWith pfx)

/-- Backend `listObjectsV2` over a bucket holding `objs`: one page of at most
`maxKeys` matching entries starting at the cursor (`none` = start), with the
next cursor exactly when further entries remain. -/
def listObjectsV2 (objs : List S3Object) (pfx : String)
    (continuationToken : Option Nat) (maxKeys : Nat) : ListObjectsV2Result :=
  { contents :=
      ((matchingObjects objs pfx).drop (continuationToken.getD 0)).take maxKeys,
    nextContinuationToken :=
      if continuationToken.getD 0 + maxKeys < (matchingObjects objs pfx).length then
        some (continuationToken.getD 0 + maxKeys)
      else none }

namespace AwsS3Storage

/-- Driver `copy`: backend `copyObject` with the fully qualified source, the
result wrapped in `{raw}`; a backend failure is translated with the source key
as path. Returns the result, the post state and the calls issued. -/
def copy (st : S3State) (bucket src dest : String) :
    Except StorageError Response × S3State × List S3Call :=
  match copyObject st src dest with
  | .ok (result, st2) => (.ok ⟨.copyRes result⟩, st2, [.copyObject src dest])
  | .error e => (.error (handleError e src bucket), st, [.copyObject src dest])

/-- Driver `delete`: backend `deleteObject`; on success the envelope's
`wasDeleted` is `null` (`none`); a failure is translated. -/
def delete (st : S3State) (bucket location : String) :
    Except StorageError DeleteResponse × S3State × List S3Call :=
  match deleteObject st location with
  | .ok (result, st2) =>
    (.ok ⟨.deleteRes result, none⟩, st2, [.deleteObject location])
  | .error e => (.error (handleError e location bucket), st, [.deleteObject location])

/-- Driver `move`: `copy src dest` then `delete src`, returning
`{raw: undefined}` when both succeed; the first failing step's translated
error is raised and the second step is not reached after a copy failure. -/
def move (st : S3State) (bucket src dest : String) :
    Except StorageError Response × S3State × List S3Call :=
  match copy st bucket src dest with
  | (.error e, st1, t1) => (.error e, st1, t1)
  | (.ok _, st1, t1) =>
    match delete st1 bucket src with
    | (.error e, st2, t2) => (.error e, st2, t1 ++ t2)
    | (.ok _, st2, t2) => (.ok ⟨.undef⟩, st2, t1 ++ t2)

/-- Driver `exists`: metadata probe outcome; a failure whose status code is
404 yields `{exists: false, raw: error}` instead of raising; any other
failure is translated and raised. -/
def «exists» (outcome : Except BackendError HeadObjectResult)
    (location bucket : String) : Except StorageError ExistsResponse :=
  match outcome with
  | .ok result => .ok ⟨true, .headRes result⟩
  | .error e =>
    if e.statusCode = some 404 then .ok ⟨false, .headErr e⟩
    else .error (handleError e location bucket)

/-- Driver `getBuffer`: full body of the object as bytes, raw result kept. -/
def getBuffer (outcome : Except BackendError GetObjectResult)
    (location bucket : String) : Except StorageError (ContentResponse Bytes) :=
  match outcome with
  | .ok result => .ok ⟨result.body, .getRes result⟩
  | .error e => .error (handleError e location bucket)

/-- A text codec of the host platform (`BufferEncoding` of Node): an encoding
of text to bytes and the matching decoding. The codecs themselves live
outside this repository; the driver only applies `decode`. -/
structure BufferEncoding where
  encode : String → Bytes
  decode : Bytes → String

/-- UTF-8 bytes of one character. -/
def utf8EncodeChar (c : Char) : Bytes :=
  let n := c.toNat
  if n < 128 then [n]
  else if n < 2048 then [192 + n / 64, 128 + n % 64]
  else if n < 65536 then [224 + n / 4096, 128 + n / 64 % 64, 128 + n % 64]
  else [240 + n / 262144, 128 + n / 4096 % 64, 128 + n / 64 % 64, 128 + n % 64]

/-- UTF-8 encoding of a string. -/
def utf8Encode (s : String) : Bytes :=
  (s.data.map utf8EncodeChar).flatten

/-- UTF-8 decoding of a byte list (leading-byte driven; ill-formed tails are
dropped, which never arises on encoder output). -/
def utf8Decode : Bytes → List Char
  | [] => []
  | b :: bs =>
    if b < 128 then Char.ofNat b :: utf8Decode bs
    else if b < 224 then
      match bs with
      | b1 :: rest => Char.ofNat ((b - 192) * 64 + (b1 - 128)) :: utf8Decode rest
      | [] => []
    else if b < 240 then
      match bs with
      | b1 :: b2 :: rest =>
        Char.ofNat ((b - 224) * 4096 + (b1 - 128) * 64 + (b2 - 128)) :: utf8Decode rest
      | _ => []
    else
      match bs with
      | b1 :: b2 :: b3 :: rest =>
        Char.ofNat ((b - 240) * 262144 + (b1 - 128) * 4096 + (b2 - 128) * 64 + (b3 - 128))
          :: utf8Decode rest
      | _ => []

/-- The `utf-8` codec, the source's default encoding argument. -/
def utf8 : BufferEncoding :=
  ⟨utf8Encode, fun bs => String.mk (utf8Decode bs)⟩

/-- Driver `get`: `getBuffer` then text decoding of the content with the
requested encoding (`utf-8` when none is given), same raw result. -/
def get (outcome : Except BackendError GetObjectResult) (location bucket : String)
    (encoding : Option BufferEncoding) : Except StorageError (ContentResponse String) :=
  let enc := encoding.getD utf8
  match getBuffer outcome location bucket with
  | .error e => .error e
  | .ok bufferResult => .ok ⟨enc.decode bufferResult.content, bufferResult.raw⟩

/-- Driver `getStat`: size and modification time from the metadata probe. -/
def getStat (outcome : Except BackendError HeadObjectResult)
    (location bucket : String) : Except StorageError StatResponse :=
  match outcome with
  | .ok result => .ok ⟨result.contentLength, result.lastModified, .headRes result⟩
  | .error e => .error (handleError e location bucket)

/-- Driver `getSignedUrl`: the signing call's resulting URL, which is also the
raw result; a failure is translated. -/
def getSignedUrl (outcome : Except BackendError String)
    (location bucket : String) : Except StorageError SignedUrlResponse :=
  match outcome with
  | .ok result => .ok ⟨result, .signedUrl result⟩
  | .error e => .error (handleError e location bucket)

/-- Driver `getStream`: the source has no try/catch here, so a backend failure
is rethrown to the host untranslated (`RaisedError.native`). -/
def getStream (outcome : Except BackendError GetObjectResult) :
    Except RaisedError Bytes :=
  match outcome with
  | .ok res => .ok res.body
  | .error e => .error (.native e)

/-- Driver `put`: the source calls `putObject` without `await`, so the
try/catch observes no failure and the envelope is returned at once with the
still-pending call as its raw value; a backend write failure is never
translated nor raised. -/
def put (outcome : Except BackendError PutObjectResult)
    (location bucket : String) : Except StorageError Response :=
  .ok ⟨.pendingPut outcome⟩

/-- The `do ... while (continuationToken)` loop of `flatList` over a
fault-free backend: fetch one page of at most 1000 matching entries at the
cursor, yield each entry as `{raw, path: key}`, and continue while the
backend returns a continuation token. -/
def flatListLoop (objs : List S3Object) (pfx : String)
    (continuationToken : Option Nat) : List FileListResponse :=
  match h : (listObjectsV2 objs pfx continuationToken 1000).nextContinuationToken with
  | none =>
    (listObjectsV2 objs pfx continuationToken 1000).contents.map
      (fun file => ⟨.listEntry file, file.key⟩)
  | some next =>
    ((listObjectsV2 objs pfx continuationToken 1000).contents.map
      (fun file => ⟨.listEntry file, file.key⟩))
      ++ flatListLoop objs pfx (some next)
termination_by (matchingObjects objs pfx).length - continuationToken.getD 0
decreasing_by
  simp only [listObjectsV2] at h
  split at h
  · cases h
    simp only [Option.getD_some]
    omega
  · cases h

/-- Driver `flatList` fully consumed: the loop starts with the cursor
absent. -/
def flatList (objs : List S3Object) (pfx : String) : List FileListResponse :=
  flatListLoop objs pfx none

/-- The same `flatList` loop over a backend that may fail any page fetch
(`fetch` maps a cursor to the call's outcome); a failing fetch is translated
with the prefix as path and ends the sequence. `fuel` bounds the number of
page fetches so the loop is total over arbitrary fetch oracles; every theorem
about it holds for every fuel. -/
def flatListE (fetch : Option Nat → Except BackendError ListObjectsV2Result)
    (pfx bucket : String) :
    Option Nat → Nat → Except StorageError (List FileListResponse)
  | _, 0 => .ok []
  | continuationToken, fuel + 1 =>
    match fetch continuationToken with
    | .error e => .error (handleError e pfx bucket)
    | .ok response =>
      match response.nextContinuationToken with
      | none => .ok (response.contents.map (fun file => ⟨.listEntry file, file.key⟩))
      | some next =>
        match flatListE fetch pfx bucket (some next) fuel with
        | .error err => .error err
        | .ok rest =>
          .ok ((response.contents.map (fun file => ⟨.listEntry file, file.key⟩)) ++ rest)

end AwsS3Storage

/-- Full consumption of the pagination loop from cursor `tok` yields exactly
the matching objects from position `tok.getD 0` on, one entry per object. -/
theorem flatListLoop_eq (objs : List S3Object) (pfx : String) (tok : Option Nat) :
    AwsS3Storage.flatListLoop objs pfx tok =
      ((matchingObjects objs pfx).drop (tok.getD 0)).map
        (fun file => ⟨RawResult.listEntry file, file.key⟩) := by
  induction tok using AwsS3Storage.flatListLoop.induct objs pfx with
  | case1 x h =>
      unfold AwsS3Storage.flatListLoop
      split
      · simp only [listObjectsV2] at h ⊢
        split at h
        · cases h
        · rename_i hge
          rw [List.take_of_length_le]
          rw [List.length_drop]
          omega
      · rename_i next h2
        rw [h] at h2
        cases h2
  | case2 x next h ih =>
      have hfacts : x.getD 0 + 1000 < (matchingObjects objs pfx).length ∧
          next = x.getD 0 + 1000 := by
        simp only [listObjectsV2] at h
        split at h
        · exact ⟨by assumption, (Option.some.inj h).symm⟩
        · cases h
      obtain ⟨hlt, hnext⟩ := hfacts
      subst hnext
      unfold AwsS3Storage.flatListLoop
      split
      · rename_i h2
        rw [h] at h2
        cases h2
      · rename_i next2 h2
        rw [h] at h2
        cases h2
        rw [ih]
        simp only [listObjectsV2, Option.getD_some]
        rw [← List.map_append, ← List.drop_drop, List.take_append_drop]

/-- C1: the error mapper is total and sends `NoSuchBucket` to
`NoSuchBucketException bucket`, `NoSuchKey` to `FileNotFoundException path`,
`AllAccessDisabled` to `PermissionMissingException path`, every other name to
`UnknownException name path`, and always retains the original error as cause. -/
theorem handleError_total_mapping (err : BackendError) (path bucket : String) :
    (err.name = "NoSuchBucket" →
      handleError err path bucket = .NoSuchBucketException err bucket) ∧
    (err.name = "NoSuchKey" →
      handleError err path bucket = .FileNotFoundException err path) ∧
    (err.name = "AllAccessDisabled" →
      handleError err path bucket = .PermissionMissingException err path) ∧
    (err.name ≠ "NoSuchBucket" → err.name ≠ "NoSuchKey" →
      err.name ≠ "AllAccessDisabled" →
      handleError err path bucket = .UnknownException err err.name path) ∧
    (handleError err path bucket).cause = err := by
  unfold handleError
  refine ⟨fun h => ?_, fun h => ?_, fun h => ?_, fun h1 h2 h3 => ?_, ?_⟩
  · simp only [h]
  · simp only [h]
  · simp only [h]
  · split
    · simp_all
    · simp_all
    · simp_all
    · rfl
  · split <;> rfl

/-- Concrete instances of the error-mapper theorem at each of the four kinds. -/
theorem handleError_total_mapping_witness :
    handleError ⟨"NoSuchBucket", none⟩ "p" "b" =
      .NoSuchBucketException ⟨"NoSuchBucket", none⟩ "b" ∧
    handleError ⟨"NoSuchKey", none⟩ "p" "b" =
      .FileNotFoundException ⟨"NoSuchKey", none⟩ "p" ∧
    handleError ⟨"AllAccessDisabled", none⟩ "p" "b" =
      .PermissionMissingException ⟨"AllAccessDisabled", none⟩ "p" ∧
    handleError ⟨"Throttling", none⟩ "p" "b" =
      .UnknownException ⟨"Throttling", none⟩ "Throttling" "p" ∧
    (handleError ⟨"Throttling", none⟩ "p" "b").cause = ⟨"Throttling", none⟩ :=
  ⟨(handleError_total_mapping ⟨"NoSuchBucket", none⟩ "p" "b").1 rfl,
   (handleError_total_mapping ⟨"NoSuchKey", none⟩ "p" "b").2.1 rfl,
   (handleError_total_mapping ⟨"AllAccessDisabled", none⟩ "p" "b").2.2.1 rfl,
   (handleError_total_mapping ⟨"Throttling", none⟩ "p" "b").2.2.2.1
     (by decide) (by decide) (by decide),
   (handleError_total_mapping ⟨"Throttling", none⟩ "p" "b").2.2.2.2⟩

/-- A first match is unchanged by filtering out a different key's bindings. -/
theorem find?_filter_ne (store : List (String × Bytes)) (k k2 : String)
    (h : k ≠ k2) :
    List.find? (fun p => p.1 == k) (store.filter (fun p => p.1 != k2)) =
      List.find? (fun p => p.1 == k) store := by
  have hb : (k2 == k) = false := beq_eq_false_iff_ne.mpr (fun hh => h hh.symm)
  induction store with
  | nil => rfl
  | cons p rest ih =>
    by_cases hp : p.1 = k2
    · simp [List.filter_cons, List.find?_cons, hp, hb, ih]
    · by_cases hk : p.1 = k
      · have hb2 : (k != k2) = true := by
          simp
          exact h
        simp [List.filter_cons, List.find?_cons, hp, hk, hb2]
      · simp [List.filter_cons, List.find?_cons, hp, hk, ih]

/-- A key written by `setKey` is read back. -/
theorem lookupKey_setKey_self (store : List (String × Bytes)) (k : String)
    (v : Bytes) : lookupKey (setKey store k v) k = some v := by
  simp [lookupKey, setKey, List.find?]

/-- Reading after `setKey`: the written key returns the written value, every
other key reads as before. -/
theorem lookupKey_setKey (store : List (String × Bytes)) (k k2 : String)
    (v : Bytes) :
    lookupKey (setKey store k2 v) k =
      if k = k2 then some v else lookupKey store k := by
  by_cases h : k = k2
  · subst h
    simp [lookupKey_setKey_self]
  · have hb : (k2 == k) = false := beq_eq_false_iff_ne.mpr (fun hh => h hh.symm)
    simp only [lookupKey, setKey, List.find?_cons, if_neg h]
    simp [hb, find?_filter_ne store k k2 h]

/-- Every error produced by the pagination loop over a failing backend is the
translation of some backend fetch failure. -/
theorem flatListE_errors_translated
    (fetch : Option Nat → Except BackendError ListObjectsV2Result)
    (pfx bucket : String) :
    ∀ (fuel : Nat) (tok : Option Nat) (err : StorageError),
      AwsS3Storage.flatListE fetch pfx bucket tok fuel = .error err →
      ∃ t e, fetch t = .error e ∧ err = handleError e pfx bucket := by
  intro fuel
  induction fuel with
  | zero =>
    intro tok err h
    simp [AwsS3Storage.flatListE] at h
  | succ n ih =>
    intro tok err h
    unfold AwsS3Storage.flatListE at h
    split at h
    · rename_i e hfetch
      refine ⟨tok, e, hfetch, ?_⟩
      cases h
      rfl
    · rename_i response hfetch
      split at h
      · cases h
      · rename_i next hnext
        split at h
        · rename_i err2 hrec
          cases h
          exact ih (some next) err hrec
        · cases h

/-- C2: fully consuming `flatList(prefix)` over a backend holding any list of
objects yields exactly one `{raw, path: key}` entry per object whose key
matches the prefix, in backend order — so exactly `N` entries for `N` matching
objects (any number of pages), no duplicates, no omissions — and the loop is
total, ending once the backend returns no continuation token. -/
theorem flatList_yields_exactly_matching (objs : List S3Object) (pfx : String) :
    AwsS3Storage.flatList objs pfx =
      (matchingObjects objs pfx).map (fun o => ⟨RawResult.listEntry o, o.key⟩) ∧
    (AwsS3Storage.flatList objs pfx).map FileListResponse.path =
      (matchingObjects objs pfx).map S3Object.key ∧
    (AwsS3Storage.flatList objs pfx).length = (matchingObjects objs pfx).length := by
  have h := flatListLoop_eq objs pfx none
  refine ⟨?_, ?_, ?_⟩ <;>
    simp [AwsS3Storage.flatList, h, List.map_map]

/-- C3: the existence probe returns `{exists: true, raw: result}` when the
metadata probe succeeds, returns `{exists: false, raw: the backend error}`
without raising when the failure's status is 404, and translates and raises
every other backend failure. -/
theorem exists_probe_spec :
    (∀ (r : HeadObjectResult) (location bucket : String),
      AwsS3Storage.«exists» (.ok r) location bucket = .ok ⟨true, .headRes r⟩) ∧
    (∀ (e : BackendError) (location bucket : String), e.statusCode = some 404 →
      AwsS3Storage.«exists» (.error e) location bucket = .ok ⟨false, .headErr e⟩) ∧
    (∀ (e : BackendError) (location bucket : String), e.statusCode ≠ some 404 →
      AwsS3Storage.«exists» (.error e) location bucket =
        .error (handleError e location bucket)) := by
  refine ⟨fun r l b => rfl, fun e l b h => ?_, fun e l b h => ?_⟩
  · simp [AwsS3Storage.«exists», h]
  · simp [AwsS3Storage.«exists», h]

/-- Concrete instances of the existence-probe theorem: a success, a 404
failure, a non-404 failure. -/
theorem exists_probe_spec_witness :
    AwsS3Storage.«exists» (.ok ⟨3, 5⟩) "k" "b" = .ok ⟨true, .headRes ⟨3, 5⟩⟩ ∧
    AwsS3Storage.«exists» (.error ⟨"NotFound", some 404⟩) "k" "b" =
      .ok ⟨false, .headErr ⟨"NotFound", some 404⟩⟩ ∧
    AwsS3Storage.«exists» (.error ⟨"AllAccessDisabled", some 403⟩) "k" "b" =
      .error (handleError ⟨"AllAccessDisabled", some 403⟩ "k" "b") :=
  ⟨exists_probe_spec.1 ⟨3, 5⟩ "k" "b",
   exists_probe_spec.2.1 ⟨"NotFound", some 404⟩ "k" "b" rfl,
   exists_probe_spec.2.2 ⟨"AllAccessDisabled", some 403⟩ "k" "b" (by decide)⟩

/-- C9: a successful `delete` always carries the indeterminate `wasDeleted`
value (`null`/`none`), never a concrete boolean, whatever the prior state. -/
theorem delete_wasDeleted_indeterminate (st : S3State) (bucket location : String)
    (r : DeleteResponse) :
    (AwsS3Storage.delete st bucket location).1 = .ok r → r.wasDeleted = none := by
  intro h
  unfold AwsS3Storage.delete at h
  split at h <;> simp_all
  rw [← h]

/-- Concrete instance: deleting a present key returns `wasDeleted = none`. -/
theorem delete_wasDeleted_indeterminate_witness :
    (⟨.deleteRes ⟨none⟩, none⟩ : DeleteResponse).wasDeleted = none :=
  delete_wasDeleted_indeterminate ⟨[("k", [1])], none, none⟩ "b" "k"
    ⟨.deleteRes ⟨none⟩, none⟩ rfl

/-- C10: the `exists` short-circuit keys on the numeric status code alone: a
failure named `NoSuchKey` with a non-404 status is translated and raised (as
the object-not-found kind), while any failure with status 404 returns
`{exists: false}` whatever its name. -/
theorem exists_classifies_by_status :
    (∀ (e : BackendError) (location bucket : String),
      e.name = "NoSuchKey" → e.statusCode ≠ some 404 →
      AwsS3Storage.«exists» (.error e) location bucket =
        .error (.FileNotFoundException e location)) ∧
    (∀ (e : BackendError) (location bucket : String), e.statusCode = some 404 →
      AwsS3Storage.«exists» (.error e) location bucket = .ok ⟨false, .headErr e⟩) := by
  constructor
  · intro e l b hn hs
    simp [AwsS3Storage.«exists», hs, handleError, hn]
  · intro e l b hs
    simp [AwsS3Storage.«exists», hs]

/-- Concrete instances: `NoSuchKey` with status 500 is raised translated;
an arbitrary name with status 404 short-circuits to `{exists: false}`. -/
theorem exists_classifies_by_status_witness :
    AwsS3Storage.«exists» (.error ⟨"NoSuchKey", some 500⟩) "k" "b" =
      .error (.FileNotFoundException ⟨"NoSuchKey", some 500⟩ "k") ∧
    AwsS3Storage.«exists» (.error ⟨"Whatever", some 404⟩) "k" "b" =
      .ok ⟨false, .headErr ⟨"Whatever", some 404⟩⟩ :=
  ⟨exists_classifies_by_status.1 ⟨"NoSuchKey", some 500⟩ "k" "b" rfl (by decide),
   exists_classifies_by_status.2 ⟨"Whatever", some 404⟩ "k" "b" rfl⟩

/-- C4: `move` is exactly `copy` then `delete` of the source, answering
`{raw: undefined}` on success; it is not atomic: a copy failure leaves the
state untouched and never issues the delete call, and a delete failure after
a successful copy leaves both the source and the destination present, the
raised error being the failing step's translated error in each case. -/
theorem move_two_step (st : S3State) (bucket src dest : String) :
    (∀ body, st.copyFail = none → st.deleteFail = none →
      lookupKey st.store src = some body →
      AwsS3Storage.move st bucket src dest =
        (.ok ⟨.undef⟩,
         { st with store := removeKey (setKey st.store dest body) src },
         [.copyObject src dest, .deleteObject src])) ∧
    (∀ e, st.copyFail = some e →
      AwsS3Storage.move st bucket src dest =
        (.error (handleError e src bucket), st, [.copyObject src dest])) ∧
    (∀ e body, st.copyFail = none → st.deleteFail = some e →
      lookupKey st.store src = some body →
      AwsS3Storage.move st bucket src dest =
        (.error (handleError e src bucket),
         { st with store := setKey st.store dest body },
         [.copyObject src dest, .deleteObject src]) ∧
      lookupKey (setKey st.store dest body) src = some body ∧
      lookupKey (setKey st.store dest body) dest = some body) := by
  refine ⟨fun body hc hd hs => ?_, fun e hc => ?_, fun e body hc hd hs => ?_⟩
  · simp [AwsS3Storage.move, AwsS3Storage.copy, AwsS3Storage.delete,
      copyObject, deleteObject, hc, hd, hs]
  · simp [AwsS3Storage.move, AwsS3Storage.copy, copyObject, hc]
  · refine ⟨?_, ?_, lookupKey_setKey_self st.store dest body⟩
    · simp [AwsS3Storage.move, AwsS3Storage.copy, AwsS3Storage.delete,
        copyObject, deleteObject, hc, hd, hs]
    · rw [lookupKey_setKey]
      split
      · rfl
      · exact hs

/-- Concrete instances of the `move` theorem: a success, a copy failure, a
delete failure after a successful copy. -/
theorem move_two_step_witness :
    AwsS3Storage.move ⟨[("s", [7])], none, none⟩ "b" "s" "d" =
      (.ok ⟨.undef⟩, ⟨[("d", [7])], none, none⟩,
       [.copyObject "s" "d", .deleteObject "s"]) ∧
    AwsS3Storage.move ⟨[("s", [7])], some ⟨"AllAccessDisabled", some 403⟩, none⟩
        "b" "s" "d" =
      (.error (handleError ⟨"AllAccessDisabled", some 403⟩ "s" "b"),
       ⟨[("s", [7])], some ⟨"AllAccessDisabled", some 403⟩, none⟩,
       [.copyObject "s" "d"]) ∧
    (AwsS3Storage.move ⟨[("s", [7])], none, some ⟨"InternalError", some 500⟩⟩
        "b" "s" "d" =
      (.error (handleError ⟨"InternalError", some 500⟩ "s" "b"),
       ⟨[("d", [7]), ("s", [7])], none, some ⟨"InternalError", some 500⟩⟩,
       [.copyObject "s" "d", .deleteObject "s"]) ∧
     lookupKey (setKey [("s", [7])] "d" [7]) "s" = some [7] ∧
     lookupKey (setKey [("s", [7])] "d" [7]) "d" = some [7]) :=
  ⟨(move_two_step ⟨[("s", [7])], none, none⟩ "b" "s" "d").1 [7] rfl rfl rfl,
   (move_two_step ⟨[("s", [7])], some ⟨"AllAccessDisabled", some 403⟩, none⟩
      "b" "s" "d").2.1 ⟨"AllAccessDisabled", some 403⟩ rfl,
   (move_two_step ⟨[("s", [7])], none, some ⟨"InternalError", some 500⟩⟩
      "b" "s" "d").2.2 ⟨"InternalError", some 500⟩ [7] rfl rfl rfl⟩

/-- C5 (amended): the translation is applied to every backend failure of
`copy`, `delete`, `move` (either step), `exists` (outside its 404
short-circuit), `get`, `getBuffer`, `getStat`, `getSignedUrl`, and every page
fetch of the pagination loop; every error the loop raises is a translated
fetch failure. (`getStream` and `put` are the exceptions, settled apart.) -/
theorem errors_translated_uniformly :
    (∀ (st : S3State) (bucket src dest : String) (e : BackendError),
      st.copyFail = some e →
      (AwsS3Storage.copy st bucket src dest).1 =
        .error (handleError e src bucket)) ∧
    (∀ (st : S3State) (bucket location : String) (e : BackendError),
      st.deleteFail = some e →
      (AwsS3Storage.delete st bucket location).1 =
        .error (handleError e location bucket)) ∧
    (∀ (st : S3State) (bucket src dest : String) (e : BackendError),
      st.copyFail = some e →
      (AwsS3Storage.move st bucket src dest).1 =
        .error (handleError e src bucket)) ∧
    (∀ (st : S3State) (bucket src dest : String) (e : BackendError) (body : Bytes),
      st.copyFail = none → st.deleteFail = some e →
      lookupKey st.store src = some body →
      (AwsS3Storage.move st bucket src dest).1 =
        .error (handleError e src bucket)) ∧
    (∀ (e : BackendError) (location bucket : String), e.statusCode ≠ some 404 →
      AwsS3Storage.«exists» (.error e) location bucket =
        .error (handleError e location bucket)) ∧
    (∀ (e : BackendError) (location bucket : String)
        (enc : Option AwsS3Storage.BufferEncoding),
      AwsS3Storage.get (.error e) location bucket enc =
        .error (handleError e location bucket)) ∧
    (∀ (e : BackendError) (location bucket : String),
      AwsS3Storage.getBuffer (.error e) location bucket =
        .error (handleError e location bucket)) ∧
    (∀ (e : BackendError) (location bucket : String),
      AwsS3Storage.getStat (.error e) location bucket =
        .error (handleError e location bucket)) ∧
    (∀ (e : BackendError) (location bucket : String),
      AwsS3Storage.getSignedUrl (.error e) location bucket =
        .error (handleError e location bucket)) ∧
    (∀ (fetch : Option Nat → Except BackendError ListObjectsV2Result)
        (pfx bucket : String) (tok : Option Nat) (fuel : Nat) (e : BackendError),
      fetch tok = .error e →
      AwsS3Storage.flatListE fetch pfx bucket tok (fuel + 1) =
        .error (handleError e pfx bucket)) ∧
    (∀ (fetch : Option Nat → Except BackendError ListObjectsV2Result)
        (pfx bucket : String) (tok : Option Nat) (fuel : Nat) (err : StorageError),
      AwsS3Storage.flatListE fetch pfx bucket tok fuel = .error err →
      ∃ t e, fetch t = .error e ∧ err = handleError e pfx bucket) := by
  refine ⟨fun st b s d e h => ?_, fun st b l e h => ?_, fun st b s d e h => ?_,
    fun st b s d e body hc hd hs => ?_, fun e l b h => ?_, fun e l b enc => rfl,
    fun e l b => rfl, fun e l b => rfl, fun e l b => rfl,
    fun fetch pfx b tok fuel e h => ?_,
    fun fetch pfx b tok fuel err h => flatListE_errors_translated fetch pfx b fuel tok err h⟩
  · simp [AwsS3Storage.copy, copyObject, h]
  · simp [AwsS3Storage.delete, deleteObject, h]
  · simp [AwsS3Storage.move, AwsS3Storage.copy, copyObject, h]
  · simp [AwsS3Storage.move, AwsS3Storage.copy, AwsS3Storage.delete,
      copyObject, deleteObject, hc, hd, hs]
  · simp [AwsS3Storage.«exists», h]
  · unfold AwsS3Storage.flatListE
    simp [h]

/-- Concrete instances of the uniform-translation theorem, one per wrapped
operation and one for a failing page fetch of the loop. -/
theorem errors_translated_uniformly_witness :
    (AwsS3Storage.copy ⟨[], some ⟨"NoSuchBucket", none⟩, none⟩ "b" "s" "d").1 =
      .error (handleError ⟨"NoSuchBucket", none⟩ "s" "b") ∧
    (AwsS3Storage.delete ⟨[], none, some ⟨"Oops", none⟩⟩ "b" "k").1 =
      .error (handleError ⟨"Oops", none⟩ "k" "b") ∧
    (AwsS3Storage.move ⟨[], some ⟨"NoSuchBucket", none⟩, none⟩ "b" "s" "d").1 =
      .error (handleError ⟨"NoSuchBucket", none⟩ "s" "b") ∧
    (AwsS3Storage.move ⟨[("s", [1])], none, some ⟨"Oops", none⟩⟩ "b" "s" "d").1 =
      .error (handleError ⟨"Oops", none⟩ "s" "b") ∧
    AwsS3Storage.«exists» (.error ⟨"AllAccessDisabled", some 403⟩) "k" "b" =
      .error (handleError ⟨"AllAccessDisabled", some 403⟩ "k" "b") ∧
    AwsS3Storage.get (.error ⟨"NoSuchKey", some 404⟩) "k" "b" none =
      .error (handleError ⟨"NoSuchKey", some 404⟩ "k" "b") ∧
    AwsS3Storage.getBuffer (.error ⟨"NoSuchKey", some 404⟩) "k" "b" =
      .error (handleError ⟨"NoSuchKey", some 404⟩ "k" "b") ∧
    AwsS3Storage.getStat (.error ⟨"NoSuchKey", some 404⟩) "k" "b" =
      .error (handleError ⟨"NoSuchKey", some 404⟩ "k" "b") ∧
    AwsS3Storage.getSignedUrl (.error ⟨"SigningError", none⟩) "k" "b" =
      .error (handleError ⟨"SigningError", none⟩ "k" "b") ∧
    AwsS3Storage.flatListE (fun _ => .error ⟨"Throttling", none⟩) "p" "b" none 1 =
      .error (handleError ⟨"Throttling", none⟩ "p" "b") :=
  ⟨errors_translated_uniformly.1 ⟨[], some ⟨"NoSuchBucket", none⟩, none⟩
     "b" "s" "d" ⟨"NoSuchBucket", none⟩ rfl,
   errors_translated_uniformly.2.1 ⟨[], none, some ⟨"Oops", none⟩⟩
     "b" "k" ⟨"Oops", none⟩ rfl,
   errors_translated_uniformly.2.2.1 ⟨[], some ⟨"NoSuchBucket", none⟩, none⟩
     "b" "s" "d" ⟨"NoSuchBucket", none⟩ rfl,
   errors_translated_uniformly.2.2.2.1 ⟨[("s", [1])], none, some ⟨"Oops", none⟩⟩
     "b" "s" "d" ⟨"Oops", none⟩ [1] rfl rfl rfl,
   errors_translated_uniformly.2.2.2.2.1 ⟨"AllAccessDisabled", some 403⟩
     "k" "b" (by decide),
   errors_translated_uniformly.2.2.2.2.2.1 ⟨"NoSuchKey", some 404⟩ "k" "b" none,
   errors_translated_uniformly.2.2.2.2.2.2.1 ⟨"NoSuchKey", some 404⟩ "k" "b",
   errors_translated_uniformly.2.2.2.2.2.2.2.1 ⟨"NoSuchKey", some 404⟩ "k" "b",
   errors_translated_uniformly.2.2.2.2.2.2.2.2.1 ⟨"SigningError", none⟩ "k" "b",
   errors_translated_uniformly.2.2.2.2.2.2.2.2.2.1
     (fun _ => .error ⟨"Throttling", none⟩) "p" "b" none 0 ⟨"Throttling", none⟩ rfl⟩

/-- C5 counterexample: `getStream` has no try/catch, so a backend failure —
here one named `NoSuchKey` — is raised to the host untranslated, not as one of
the four translated kinds. -/
theorem getStream_raises_untranslated :
    AwsS3Storage.getStream (.error ⟨"NoSuchKey", some 404⟩) =
      .error (.native ⟨"NoSuchKey", some 404⟩) ∧
    (RaisedError.native ⟨"NoSuchKey", some 404⟩).isTranslated = false :=
  ⟨rfl, rfl⟩

/-- C6: evaluation of the source's `put` at a failing backend write — the
call is issued without `await`, so the operation still answers success with
the pending call in `raw`, and the failure is never translated nor raised. -/
theorem put_swallows_write_failure :
    AwsS3Storage.put (.error ⟨"NoSuchBucket", some 404⟩) "k" "b" =
      .ok ⟨.pendingPut (.error ⟨"NoSuchBucket", some 404⟩)⟩ ∧
    AwsS3Storage.put (.error ⟨"NoSuchBucket", some 404⟩) "k" "b" ≠
      .error (handleError ⟨"NoSuchBucket", some 404⟩ "k" "b") :=
  ⟨rfl, by decide⟩

/-- C7: `get` is `getBuffer` followed by decoding the bytes with the
requested encoding (utf-8 when none is given), propagating the same raw
result and the same errors; and a `put` of text encoded with an encoding
followed by `get` with that encoding returns the original text. -/
theorem get_is_getBuffer_then_decode :
    (∀ (outcome : Except BackendError GetObjectResult) (location bucket : String)
        (enc : AwsS3Storage.BufferEncoding) (r : ContentResponse Bytes),
      AwsS3Storage.getBuffer outcome location bucket = .ok r →
      AwsS3Storage.get outcome location bucket (some enc) =
        .ok ⟨enc.decode r.content, r.raw⟩) ∧
    (∀ (outcome : Except BackendError GetObjectResult) (location bucket : String)
        (enc : AwsS3Storage.BufferEncoding) (err : StorageError),
      AwsS3Storage.getBuffer outcome location bucket = .error err →
      AwsS3Storage.get outcome location bucket (some enc) = .error err) ∧
    (∀ (outcome : Except BackendError GetObjectResult) (location bucket : String),
      AwsS3Storage.get outcome location bucket none =
        AwsS3Storage.get outcome location bucket (some AwsS3Storage.utf8)) ∧
    (∀ (st : S3State) (location bucket : String)
        (enc : AwsS3Storage.BufferEncoding) (t : String),
      enc.decode (enc.encode t) = t →
      AwsS3Storage.get (getObject (putObject st location (enc.encode t)).2 location)
          location bucket (some enc) = .ok ⟨t, .getRes ⟨enc.encode t⟩⟩) := by
  refine ⟨fun outcome l b enc r h => ?_, fun outcome l b enc err h => ?_,
    fun outcome l b => rfl, fun st l b enc t h => ?_⟩
  · simp [AwsS3Storage.get, h]
  · simp [AwsS3Storage.get, h]
  · have hg : getObject (putObject st l (enc.encode t)).2 l = .ok ⟨enc.encode t⟩ := by
      simp [getObject, putObject, lookupKey_setKey_self]
    simp [AwsS3Storage.get, AwsS3Storage.getBuffer, hg, h]

/-- Concrete instances: a decode of fetched bytes, an error propagation, and
a utf-8 round trip through the store. -/
theorem get_is_getBuffer_then_decode_witness :
    AwsS3Storage.get (.ok ⟨[104, 105]⟩) "k" "b" (some AwsS3Storage.utf8) =
      .ok ⟨AwsS3Storage.utf8.decode [104, 105], .getRes ⟨[104, 105]⟩⟩ ∧
    AwsS3Storage.get (.error ⟨"NoSuchKey", some 404⟩) "k" "b"
        (some AwsS3Storage.utf8) =
      .error (handleError ⟨"NoSuchKey", some 404⟩ "k" "b") ∧
    AwsS3Storage.get
        (getObject (putObject ⟨[], none, none⟩ "k"
          (AwsS3Storage.utf8.encode "ab")).2 "k") "k" "b"
        (some AwsS3Storage.utf8) =
      .ok ⟨"ab", .getRes ⟨AwsS3Storage.utf8.encode "ab"⟩⟩ :=
  ⟨get_is_getBuffer_then_decode.1 (.ok ⟨[104, 105]⟩) "k" "b" AwsS3Storage.utf8
     ⟨[104, 105], .getRes ⟨[104, 105]⟩⟩ rfl,
   get_is_getBuffer_then_decode.2.1 (.error ⟨"NoSuchKey", some 404⟩) "k" "b"
     AwsS3Storage.utf8 (handleError ⟨"NoSuchKey", some 404⟩ "k" "b") rfl,
   get_is_getBuffer_then_decode.2.2.2 ⟨[], none, none⟩ "k" "b"
     AwsS3Storage.utf8 "ab" (by decide)⟩

/-- C8 (amended): every envelope of a successful operation other than `move`
and `put` carries the backend-native result of its call in `raw` (the probe
error itself for the `exists` not-found case, per the data model): `copy`,
`delete`, `exists`, `getBuffer`, `get`, `getStat`, `getSignedUrl` and every
`flatList` entry. -/
theorem raw_carries_backend_result :
    (∀ (st : S3State) (bucket src dest : String) (cr : CopyObjectResult)
        (st2 : S3State),
      copyObject st src dest = .ok (cr, st2) →
      (AwsS3Storage.copy st bucket src dest).1 = .ok ⟨.copyRes cr⟩) ∧
    (∀ (st : S3State) (bucket location : String) (dr : DeleteObjectResult)
        (st2 : S3State),
      deleteObject st location = .ok (dr, st2) →
      (AwsS3Storage.delete st bucket location).1 = .ok ⟨.deleteRes dr, none⟩) ∧
    (∀ (r : HeadObjectResult) (location bucket : String),
      AwsS3Storage.«exists» (.ok r) location bucket = .ok ⟨true, .headRes r⟩) ∧
    (∀ (e : BackendError) (location bucket : String), e.statusCode = some 404 →
      AwsS3Storage.«exists» (.error e) location bucket = .ok ⟨false, .headErr e⟩) ∧
    (∀ (r : GetObjectResult) (location bucket : String),
      AwsS3Storage.getBuffer (.ok r) location bucket = .ok ⟨r.body, .getRes r⟩) ∧
    (∀ (r : GetObjectResult) (location bucket : String)
        (enc : Option AwsS3Storage.BufferEncoding),
      AwsS3Storage.get (.ok r) location bucket enc =
        .ok ⟨(enc.getD AwsS3Storage.utf8).decode r.body, .getRes r⟩) ∧
    (∀ (r : HeadObjectResult) (location bucket : String),
      AwsS3Storage.getStat (.ok r) location bucket =
        .ok ⟨r.contentLength, r.lastModified, .headRes r⟩) ∧
    (∀ (url : String) (location bucket : String),
      AwsS3Storage.getSignedUrl (.ok url) location bucket =
        .ok ⟨url, .signedUrl url⟩) ∧
    (∀ (objs : List S3Object) (pfx : String),
      (AwsS3Storage.flatList objs pfx).map FileListResponse.raw =
        (matchingObjects objs pfx).map RawResult.listEntry) := by
  refine ⟨fun st b s d cr st2 h => ?_, fun st b l dr st2 h => ?_,
    fun r l b => rfl, fun e l b h => ?_, fun r l b => rfl, fun r l b enc => rfl,
    fun r l b => rfl, fun url l b => rfl, fun objs pfx => ?_⟩
  · simp [AwsS3Storage.copy, h]
  · simp [AwsS3Storage.delete, h]
  · simp [AwsS3Storage.«exists», h]
  · unfold AwsS3Storage.flatList
    rw [flatListLoop_eq]
    simp [List.map_map]

/-- Concrete instances of the raw-field theorem for the operations with
hypotheses: a copy, a delete, a 404 probe. -/
theorem raw_carries_backend_result_witness :
    (AwsS3Storage.copy ⟨[("s", [2])], none, none⟩ "b" "s" "d").1 =
      .ok ⟨.copyRes ⟨"copy-etag"⟩⟩ ∧
    (AwsS3Storage.delete ⟨[], none, none⟩ "b" "k").1 =
      .ok ⟨.deleteRes ⟨none⟩, none⟩ ∧
    AwsS3Storage.«exists» (.error ⟨"NotFound", some 404⟩) "k" "b" =
      .ok ⟨false, .headErr ⟨"NotFound", some 404⟩⟩ :=
  ⟨raw_carries_backend_result.1 ⟨[("s", [2])], none, none⟩ "b" "s" "d"
     ⟨"copy-etag"⟩ ⟨[("d", [2]), ("s", [2])], none, none⟩ rfl,
   raw_carries_backend_result.2.1 ⟨[], none, none⟩ "b" "k" ⟨none⟩
     ⟨[], none, none⟩ rfl,
   raw_carries_backend_result.2.2.2.1 ⟨"NotFound", some 404⟩ "k" "b" rfl⟩

/-- C8 counterexample: a successful `move` answers `{raw: undefined}`, which
is not a backend-native result of any call. -/
theorem move_raw_is_undefined :
    (AwsS3Storage.move ⟨[("s", [1])], none, none⟩ "b" "s" "d").1 = .ok ⟨.undef⟩ ∧
    RawResult.undef.isBackendNative = false :=
  ⟨rfl, rfl⟩

end FactoryDrive
